import Mathlib

/-!
Shallow embedding of the school-finance web client (src/frontend.js) together
with the backend behaviour it consumes.  Each client handler is modelled as a
pure function on an explicit state record mirroring the React component state;
the asynchronous fetch is modelled by an oracle outcome passed to the handler,
and every handler is split at its await point into a start function (the state
changes performed before the request is issued, plus the request itself) and a
finish function (the state changes performed once the response or the error
arrives).  The FastAPI backend is part of the repository's deployment
(src/Dockerfile launches main:app) but its code is not among the sources, so
its behaviour is modelled from the specification; every such definition is
marked with a doc comment starting with the words Modelled from the spec.
-/

/-- JavaScript-style fallback on a possibly missing string field: the
expression d or-else dflt yields dflt when the field is absent or is the
empty string (the empty string is falsy in JavaScript), and the field's own
value otherwise.  This models the expressions data.detail || 'An error
occurred' and data.detail || 'Login failed' in src/frontend.js. -/
def jsOr (d : Option String) (dflt : String) : String :=
  match d with
  | some s => if s = "" then dflt else s
  | none => dflt

/-- Numeric value of a run of decimal digit characters. -/
def digitsVal (ds : List Char) : Nat :=
  ds.foldl (fun a c => a * 10 + (c.toNat - '0'.toNat)) 0

/-- Optional leading sign: returns whether the number is negated and the
remaining characters. -/
def splitSign : List Char → Bool × List Char
  | '-' :: cs => (true, cs)
  | '+' :: cs => (false, cs)
  | cs => (false, cs)

/-- JavaScript parseInt as used with no radix argument on decimal input
(the hexadecimal 0x prefix form is not modelled; the fields feeding it come
from number-typed form inputs): leading whitespace is skipped, an optional
sign is read, then the longest leading run of decimal digits; if that run is
empty the result is NaN, modelled as none. -/
def parseIntJS (s : String) : Option Int :=
  let p := splitSign (s.toList.dropWhile (fun c => c.isWhitespace))
  let ds := p.2.takeWhile (fun c => c.isDigit)
  if ds.isEmpty then none
  else some (if p.1 then -(digitsVal ds : Int) else (digitsVal ds : Int))

/-- JavaScript parseFloat restricted to plain decimal notation (exponent
notation is not modelled; the fields feeding it come from number-typed form
inputs): leading whitespace skipped, optional sign, integer digits, then
optionally a dot and fraction digits; when no digit is read at all the
result is NaN, modelled as none.  With k fraction digits the value is the
exact rational (integer digits concatenated with the fraction digits) over
10 to the k, built with mkRat. -/
def parseFloatJS (s : String) : Option Rat :=
  let p := splitSign (s.toList.dropWhile (fun c => c.isWhitespace))
  let intDs := p.2.takeWhile (fun c => c.isDigit)
  let rest := p.2.dropWhile (fun c => c.isDigit)
  let fracDs := match rest with
    | '.' :: r => r.takeWhile (fun c => c.isDigit)
    | _ => []
  if intDs.isEmpty && fracDs.isEmpty then none
  else
    let q : Rat :=
      mkRat (digitsVal intDs * 10 ^ fracDs.length + digitsVal fracDs) (10 ^ fracDs.length)
    some (if p.1 then -q else q)

/-- Login form state (loginData in src/frontend.js). -/
structure LoginForm where
  username : String
  password : String
  deriving Repr, DecidableEq

/-- Fee-payment form state (feePayment in src/frontend.js); every field is
held as a string, exactly as the controlled inputs hold them. -/
structure FeePaymentForm where
  student_id : String
  amount : String
  transaction_date : String
  payment_method : String
  reference_details : String
  description : String
  year_id : String
  deriving Repr, DecidableEq

/-- Initial fee-payment form (lines 18-26 of src/frontend.js, also the value
the form is reset to after a successful submission); today is the current
day in ISO format, produced by new Date().toISOString().split('T')[0]. -/
def initFeePayment (today : String) : FeePaymentForm :=
  { student_id := "", amount := "", transaction_date := today,
    payment_method := "Cash", reference_details := "", description := "",
    year_id := "" }

/-- New-user form state (newUser in src/frontend.js). -/
structure NewUserForm where
  username : String
  password : String
  full_name : String
  role : String
  deriving Repr, DecidableEq

/-- Initial new-user form (lines 43-48 of src/frontend.js, also the value the
form is reset to after a successful creation). -/
def initNewUser : NewUserForm :=
  { username := "", password := "", full_name := "", role := "Teaching Staff" }

/-- Minimal user object cached by the client: the login handler stores
exactly one field, the username (line 119 of src/frontend.js). -/
structure UserInfo where
  username : String
  deriving Repr, DecidableEq

/-- Student record as returned by the student-details endpoint. -/
structure StudentDetails where
  student_id : Int
  admission_number : String
  full_name : String
  status : String
  admission_date : String
  deriving Repr, DecidableEq

/-- Fee summary as returned by the fee-summary endpoint. -/
structure FeeSummaryData where
  student_details : StudentDetails
  academic_year : String
  total_fees_due : Rat
  total_amount_paid : Rat
  pending_fees : Rat
  deriving Repr, DecidableEq

/-- Transaction record as stored by the backend and listed by the history
endpoint: id, type, amount, date, optional student id, optional description,
optional reference details, recording user, payment method, and the academic
year the payment is booked against. -/
structure ServerTx where
  transaction_id : Nat
  transaction_type : String
  amount : Rat
  transaction_date : String
  student_id : Option Int
  year_id : Option Int
  description : Option String
  reference_details : Option String
  recorded_by : String
  payment_method : String
  deriving Repr, DecidableEq

/-- Body of the fee-payment POST as built at lines 148-153 of
src/frontend.js: the form fields are spread and then amount, student_id and
year_id are overridden with their coerced values (none models NaN). -/
structure FeePaymentBody where
  student_id : Option Int
  amount : Option Rat
  transaction_date : String
  payment_method : String
  reference_details : String
  description : String
  year_id : Option Int
  deriving Repr, DecidableEq

/-- Request body variants the client sends. -/
inductive ReqBody where
  | empty
  | feePayment (b : FeePaymentBody)
  | signupUser (u : NewUserForm)
  | loginForm (fields : List (String × String))
  deriving Repr, DecidableEq

/-- An HTTP request as the client assembles it: endpoint path, method,
header list and body. -/
structure Request where
  endpoint : String
  method : String
  headers : List (String × String)
  body : ReqBody
  deriving Repr, DecidableEq

/-- Successful login response body; the client reads data.access_token. -/
structure LoginOk where
  access_token : String
  deriving Repr, DecidableEq

/-- Outcome of one fetch as observed inside the try block of a handler:
either an exception was thrown before a response was decoded (network
failure or undecodable body), or a non-ok response with an optional detail
field arrived, or an ok response with data arrived. -/
inductive ApiOutcome (α : Type) where
  | thrown (msg : String)
  | errResp (detail : Option String)
  | okResp (data : α)

/-- Client component state (the useState hooks of src/frontend.js), with the
browser localStorage entries the component writes modelled as the two
fields lsToken and lsUser. -/
structure ClientState where
  token : Option String
  user : Option UserInfo
  loading : Bool
  error : String
  success : String
  loginData : LoginForm
  feePayment : FeePaymentForm
  studentSearchId : String
  studentDetails : Option StudentDetails
  feeSummary : Option FeeSummaryData
  summaryStudentId : String
  summaryYearId : String
  transactionHistory : List ServerTx
  historyStartDate : String
  historyEndDate : String
  newUser : NewUserForm
  lsToken : Option String
  lsUser : Option UserInfo
  deriving Repr, DecidableEq

/-- Header list built by apiCall (lines 58-64 of src/frontend.js):
Content-Type always, and an Authorization bearer header exactly when a
token is held (a held token is a non-null, nonempty string, since the empty
string is falsy in JavaScript). -/
def apiCallHeaders (token : Option String) : List (String × String) :=
  [("Content-Type", "application/json")] ++
    (match token with
     | some t => if t = "" then [] else [("Authorization", "Bearer " ++ t)]
     | none => [])

/-- The request apiCall issues for a given endpoint, method and body. -/
def apiCallRequest (token : Option String) (endpoint method : String) (body : ReqBody) : Request :=
  { endpoint := endpoint, method := method, headers := apiCallHeaders token,
    body := body }

/-- Result apiCall delivers to its caller (lines 70-77 of src/frontend.js):
a thrown exception propagates with its own message; a non-ok response is
turned into an exception carrying the body's detail field, or the generic
message when that field is absent or empty; an ok response returns its
data. -/
def apiCallResult {α : Type} (outcome : ApiOutcome α) : Except String α :=
  match outcome with
  | .thrown m => .error m
  | .errResp d => .error (jsOr d "An error occurred")
  | .okResp a => .ok a

/-- State changes of handleLogin before its await (lines 94-107 of
src/frontend.js) and the request it issues: loading is set, the error is
cleared, and the login endpoint is called with multipart form data holding
the username and password fields; this request does not go through apiCall
and carries no Authorization header. -/
def handleLoginStart (s : ClientState) : ClientState × Request :=
  ({ s with loading := true, error := "" },
   { endpoint := "/login", method := "POST", headers := [],
     body := .loginForm
       [("username", s.loginData.username), ("password", s.loginData.password)] })

/-- Result decoding inside handleLogin (lines 109-113 of src/frontend.js):
like apiCallResult but with the generic message Login failed. -/
def loginResult (outcome : ApiOutcome LoginOk) : Except String LoginOk :=
  match outcome with
  | .thrown m => .error m
  | .errResp d => .error (jsOr d "Login failed")
  | .okResp a => .ok a

/-- State changes of handleLogin after its await (lines 115-128 of
src/frontend.js): on success the token is stored in state and in
localStorage together with a user object holding only the username, and the
success message is set; on error the message is surfaced; either way the
loading flag is cleared by the finally block. -/
def handleLoginFinish (s : ClientState) (outcome : ApiOutcome LoginOk) : ClientState :=
  let s2 := match loginResult outcome with
    | .ok data =>
        { s with token := some data.access_token,
                 lsToken := some data.access_token,
                 user := some { username := s.loginData.username },
                 lsUser := some { username := s.loginData.username },
                 success := "Login successful!" }
    | .error m => { s with error := m }
  { s2 with loading := false }

/-- The whole login handler: request issued and final state. -/
def handleLogin (s : ClientState) (outcome : ApiOutcome LoginOk) : Request × ClientState :=
  let p := handleLoginStart s
  (p.2, handleLoginFinish p.1 outcome)

/-- Fee-payment request body (lines 148-153 of src/frontend.js): the form is
spread into the body and amount, student_id and year_id are overridden with
parseFloat and parseInt of their string values. -/
def feePaymentBody (f : FeePaymentForm) : FeePaymentBody :=
  { student_id := parseIntJS f.student_id,
    amount := parseFloatJS f.amount,
    transaction_date := f.transaction_date,
    payment_method := f.payment_method,
    reference_details := f.reference_details,
    description := f.description,
    year_id := parseIntJS f.year_id }

/-- State changes of handleFeePayment before its await (lines 139-154 of
src/frontend.js) and the request it issues through apiCall. -/
def handleFeePaymentStart (s : ClientState) : ClientState × Request :=
  ({ s with loading := true, error := "", success := "" },
   apiCallRequest s.token "/transactions/fee-payment" "POST"
     (.feePayment (feePaymentBody s.feePayment)))

/-- State changes of handleFeePayment after its await (lines 156-170 of
src/frontend.js): on success the success message is set and the form is
reset to its initial value for the current day; on error the message is
surfaced and the form is left untouched; either way the loading flag is
cleared by the finally block. -/
def handleFeePaymentFinish (s : ClientState) (today : String)
    (outcome : ApiOutcome Unit) : ClientState :=
  let s2 := match apiCallResult outcome with
    | .ok _ => { s with success := "Fee payment recorded successfully!",
                        feePayment := initFeePayment today }
    | .error m => { s with error := m }
  { s2 with loading := false }

/-- The whole fee-payment handler: request issued and final state. -/
def handleFeePayment (s : ClientState) (today : String)
    (outcome : ApiOutcome Unit) : Request × ClientState :=
  let p := handleFeePaymentStart s
  (p.2, handleFeePaymentFinish p.1 today outcome)

/-- State changes of fetchStudentDetails before its await (lines 176-181 of
src/frontend.js): loading set, error cleared, the displayed student record
cleared to null, and the details endpoint called. -/
def fetchStudentDetailsStart (s : ClientState) : ClientState × Request :=
  ({ s with loading := true, error := "", studentDetails := none },
   apiCallRequest s.token ("/students/" ++ s.studentSearchId ++ "/details")
     "GET" .empty)

/-- State changes of fetchStudentDetails after its await (lines 181-187 of
src/frontend.js): on success the record is stored; on error the message is
surfaced and the record stays cleared; either way loading is cleared. -/
def fetchStudentDetailsFinish (s : ClientState)
    (outcome : ApiOutcome StudentDetails) : ClientState :=
  let s2 := match apiCallResult outcome with
    | .ok data => { s with studentDetails := some data }
    | .error m => { s with error := m }
  { s2 with loading := false }

/-- The whole student-details handler, including the guard at line 174 of
src/frontend.js: when the search id field is empty (falsy) the handler
returns at once, issuing no request and changing nothing. -/
def fetchStudentDetails (s : ClientState) (outcome : ApiOutcome StudentDetails) :
    Option Request × ClientState :=
  if s.studentSearchId = "" then (none, s)
  else
    let p := fetchStudentDetailsStart s
    (some p.2, fetchStudentDetailsFinish p.1 outcome)

/-- State changes of fetchFeeSummary before its await (lines 193-198 of
src/frontend.js): loading set, error cleared, the displayed summary cleared
to null, and the fee-summary endpoint called. -/
def fetchFeeSummaryStart (s : ClientState) : ClientState × Request :=
  ({ s with loading := true, error := "", feeSummary := none },
   apiCallRequest s.token
     ("/students/" ++ s.summaryStudentId ++ "/fee-summary/" ++ s.summaryYearId)
     "GET" .empty)

/-- State changes of fetchFeeSummary after its await (lines 198-204 of
src/frontend.js): on success the summary response is stored unchanged; on
error the message is surfaced; either way loading is cleared. -/
def fetchFeeSummaryFinish (s : ClientState)
    (outcome : ApiOutcome FeeSummaryData) : ClientState :=
  let s2 := match apiCallResult outcome with
    | .ok data => { s with feeSummary := some data }
    | .error m => { s with error := m }
  { s2 with loading := false }

/-- The whole fee-summary handler, including the guard at line 191 of
src/frontend.js: when the student id field or the year id field is empty
(falsy) the handler returns at once, issuing no request and changing
nothing. -/
def fetchFeeSummary (s : ClientState) (outcome : ApiOutcome FeeSummaryData) :
    Option Request × ClientState :=
  if s.summaryStudentId = "" ∨ s.summaryYearId = "" then (none, s)
  else
    let p := fetchFeeSummaryStart s
    (some p.2, fetchFeeSummaryFinish p.1 outcome)

/-- State changes of fetchTransactionHistory before its await (lines 207-212
of src/frontend.js) and the request it issues. -/
def fetchTransactionHistoryStart (s : ClientState) : ClientState × Request :=
  ({ s with loading := true, error := "" },
   apiCallRequest s.token
     ("/transactions/history?start_date=" ++ s.historyStartDate ++
       "&end_date=" ++ s.historyEndDate)
     "GET" .empty)

/-- State changes of fetchTransactionHistory after its await (lines 212-218
of src/frontend.js). -/
def fetchTransactionHistoryFinish (s : ClientState)
    (outcome : ApiOutcome (List ServerTx)) : ClientState :=
  let s2 := match apiCallResult outcome with
    | .ok data => { s with transactionHistory := data }
    | .error m => { s with error := m }
  { s2 with loading := false }

/-- The whole transaction-history handler: request issued and final state. -/
def fetchTransactionHistory (s : ClientState)
    (outcome : ApiOutcome (List ServerTx)) : Request × ClientState :=
  let p := fetchTransactionHistoryStart s
  (p.2, fetchTransactionHistoryFinish p.1 outcome)

/-- State changes of createUser before its await (lines 221-231 of
src/frontend.js) and the request it issues.  The signup request goes
through apiCall, so it carries the same headers as every other apiCall
request, the Authorization bearer header included when a token is held. -/
def createUserStart (s : ClientState) : ClientState × Request :=
  ({ s with loading := true, error := "", success := "" },
   apiCallRequest s.token "/signup" "POST" (.signupUser s.newUser))

/-- State changes of createUser after its await (lines 233-244 of
src/frontend.js): on success the success message is set and the new-user
form is reset to its defaults; on error the message is surfaced and the
form is left untouched; either way loading is cleared. -/
def createUserFinish (s : ClientState) (outcome : ApiOutcome Unit) : ClientState :=
  let s2 := match apiCallResult outcome with
    | .ok _ => { s with success := "User created successfully!",
                        newUser := initNewUser }
    | .error m => { s with error := m }
  { s2 with loading := false }

/-- The whole user-creation handler: request issued and final state. -/
def createUser (s : ClientState) (outcome : ApiOutcome Unit) : Request × ClientState :=
  let p := createUserStart s
  (p.2, createUserFinish p.1 outcome)

/-- Modelled from the spec: the backend code (main:app of src/Dockerfile) is
not among the sources; section 4.1 of the spec says login returns an opaque
bearer token on success, so the token is modelled as an unspecified function
of the username. -/
def mkToken (username : String) : String := "token-" ++ username

/-- Modelled from the spec: the backend login endpoint (section 4.1) accepts
username and password and returns a bearer token when the credentials match
a stored user, and an authentication error detail otherwise; users is the
credential store as a list of username-password pairs. -/
def loginBackend (users : List (String × String)) (username password : String) :
    ApiOutcome LoginOk :=
  if (username, password) ∈ users then .okResp { access_token := mkToken username }
  else .errResp (some "Incorrect username or password")

/-- Modelled from the spec: student detail lookup (section 4.3) returns the
student record for a known id and a not-found error otherwise; it never
returns a partial record. -/
def lookupStudent (students : List StudentDetails) (sid : Int) :
    ApiOutcome StudentDetails :=
  match students.find? (fun st => st.student_id == sid) with
  | some st => .okResp st
  | none => .errResp (some "Student not found")

/-- Validated fee-payment payload as the backend sees it once the submitted
body passed validation: the coercions of the client succeeded, so the ids
are integers and the amount a decimal. -/
structure ValidPayload where
  student_id : Int
  amount : Rat
  transaction_date : String
  payment_method : String
  reference_details : String
  description : String
  year_id : Int
  deriving Repr, DecidableEq

/-- Backend transaction store: the next fresh transaction id and the
append-only list of recorded transactions. -/
structure ServerState where
  nextId : Nat
  transactions : List ServerTx
  deriving Repr, DecidableEq

/-- Modelled from the spec: the transaction record the backend appends for a
fee-payment submission (sections 3 and 4.2): type Fee Payment, the submitted
amount, date, student id, academic year, payment method, the optional
description and reference details, attributed to the recording user. -/
def mkTx (id : Nat) (user : String) (p : ValidPayload) : ServerTx :=
  { transaction_id := id, transaction_type := "Fee Payment",
    amount := p.amount, transaction_date := p.transaction_date,
    student_id := some p.student_id, year_id := some p.year_id,
    description := if p.description = "" then none else some p.description,
    reference_details :=
      if p.reference_details = "" then none else some p.reference_details,
    recorded_by := user, payment_method := p.payment_method }

/-- Modelled from the spec: fee-payment recording (section 4.2) creates one
transaction per submission with a fresh id, append-only; no idempotency key
exists, so nothing deduplicates repeated submissions. -/
def recordFeePayment (st : ServerState) (user : String) (p : ValidPayload) :
    ServerState :=
  { nextId := st.nextId + 1,
    transactions := st.transactions ++ [mkTx st.nextId user p] }

/-- Modelled from the spec: total amount paid for a (student, year) pair
(sections 3 and 4.4) is the sum of the amounts of the matching fee-payment
transactions. -/
def totalAmountPaid (txs : List ServerTx) (sid yid : Int) : Rat :=
  ((txs.filter fun t =>
      t.transaction_type == "Fee Payment" && t.student_id == some sid &&
        t.year_id == some yid).map
    (fun t => t.amount)).sum

/-- Modelled from the spec: the fee summary for a (student, year) pair
(sections 3 and 4.4) combines the student record, the academic year label,
the total fees due from the fee schedule, the total amount paid, and the
pending fees computed as due minus paid. -/
def computeFeeSummary (sd : StudentDetails) (yearLabel : String) (due : Rat)
    (txs : List ServerTx) (sid yid : Int) : FeeSummaryData :=
  { student_details := sd, academic_year := yearLabel,
    total_fees_due := due,
    total_amount_paid := totalAmountPaid txs sid yid,
    pending_fees := due - totalAmountPaid txs sid yid }

/-- Concrete client state mirroring the component's initial hook values,
used by the concrete witnesses below. -/
def baseState : ClientState :=
  { token := none, user := none, loading := false, error := "", success := "",
    loginData := { username := "", password := "" },
    feePayment := initFeePayment "2024-06-01",
    studentSearchId := "", studentDetails := none,
    feeSummary := none, summaryStudentId := "", summaryYearId := "",
    transactionHistory := [], historyStartDate := "2024-06-01",
    historyEndDate := "2024-06-01",
    newUser := initNewUser, lsToken := none, lsUser := none }

/-- Concrete student record used by the witnesses. -/
def sampleStudent : StudentDetails :=
  { student_id := 42, admission_number := "ADM-42", full_name := "A Student",
    status := "Active", admission_date := "2020-06-01" }

/-- Concrete transaction list used by the witnesses: one matching fee
payment of 30 and one non-matching record. -/
def sampleTxs : List ServerTx :=
  [{ transaction_id := 1, transaction_type := "Fee Payment", amount := 30,
     transaction_date := "2024-06-01", student_id := some 42,
     year_id := some 7, description := none, reference_details := none,
     recorded_by := "staff", payment_method := "Cash" },
   { transaction_id := 2, transaction_type := "Other", amount := 5,
     transaction_date := "2024-06-02", student_id := none, year_id := none,
     description := some "misc", reference_details := none,
     recorded_by := "staff", payment_method := "Cash" }]

/-- Concrete validated payload used by the witnesses. -/
def samplePayload : ValidPayload :=
  { student_id := 42, amount := 500, transaction_date := "2024-06-01",
    payment_method := "Cash", reference_details := "", description := "",
    year_id := 2024 }

/-- Concrete empty backend store used by the witnesses. -/
def emptyServer : ServerState := { nextId := 0, transactions := [] }

/-- C1: the fee summary computed for a (student, year) pair satisfies
pending fees = total fees due minus total amount paid; for well-formed data
(a non-negative fee schedule and non-negative transaction amounts) both
operands are non-negative; and the client stores the summary response
unchanged, so the displayed pending fees are that exact difference. -/
theorem fee_summary_pending_invariant (sd : StudentDetails) (yl : String)
    (due : Rat) (txs : List ServerTx) (sid yid : Int) (hdue : 0 ≤ due)
    (hamt : ∀ t ∈ txs, 0 ≤ t.amount) (s : ClientState) (data : FeeSummaryData) :
    (computeFeeSummary sd yl due txs sid yid).pending_fees
      = (computeFeeSummary sd yl due txs sid yid).total_fees_due
        - (computeFeeSummary sd yl due txs sid yid).total_amount_paid ∧
    0 ≤ (computeFeeSummary sd yl due txs sid yid).total_fees_due ∧
    0 ≤ (computeFeeSummary sd yl due txs sid yid).total_amount_paid ∧
    (fetchFeeSummaryFinish s (.okResp data)).feeSummary = some data := by
  refine ⟨rfl, hdue, ?_, rfl⟩
  show 0 ≤ totalAmountPaid txs sid yid
  unfold totalAmountPaid
  apply List.sum_nonneg
  intro x hx
  obtain ⟨t, ht, rfl⟩ := List.mem_map.mp hx
  exact hamt t (List.mem_of_mem_filter ht)

/-- C1 witness: concrete fee schedule of 100 with one matching payment. -/
theorem fee_summary_pending_invariant_witness :
    (0 : Rat) ≤ 100 ∧
    (computeFeeSummary sampleStudent "2024-25" 100 sampleTxs 42 7).pending_fees
      = (computeFeeSummary sampleStudent "2024-25" 100 sampleTxs 42 7).total_fees_due
        - (computeFeeSummary sampleStudent "2024-25" 100 sampleTxs 42 7).total_amount_paid :=
  ⟨by decide,
   (fee_summary_pending_invariant sampleStudent "2024-25" 100 sampleTxs 42 7
      (by decide) (by decide) baseState
      (computeFeeSummary sampleStudent "2024-25" 100 sampleTxs 42 7)).1⟩

/-- C2: recording a fee payment is not idempotent: the client attaches no
idempotency key, so two submissions from the same token and form state issue
identical requests, and the backend appends a fresh transaction for each, so
submitting the same payload twice yields two distinct transaction records. -/
theorem fee_payment_resubmission_duplicates (s₁ s₂ : ClientState)
    (htok : s₁.token = s₂.token) (hform : s₁.feePayment = s₂.feePayment)
    (st : ServerState) (user : String) (p : ValidPayload) :
    (handleFeePaymentStart s₁).2 = (handleFeePaymentStart s₂).2 ∧
    (recordFeePayment (recordFeePayment st user p) user p).transactions
      = st.transactions ++ [mkTx st.nextId user p, mkTx (st.nextId + 1) user p] ∧
    (mkTx st.nextId user p).transaction_id ≠ (mkTx (st.nextId + 1) user p).transaction_id ∧
    mkTx st.nextId user p ≠ mkTx (st.nextId + 1) user p := by
  refine ⟨?_, ?_, ?_, ?_⟩
  · simp only [handleFeePaymentStart, htok, hform]
  · simp [recordFeePayment]
  · simp [mkTx]
  · intro h
    have h2 := congrArg ServerTx.transaction_id h
    simp [mkTx] at h2

/-- C2 witness: the same concrete payload recorded twice on an empty store. -/
theorem fee_payment_resubmission_duplicates_witness :
    baseState.token = baseState.token ∧
    (recordFeePayment (recordFeePayment emptyServer "staff" samplePayload)
        "staff" samplePayload).transactions
      = emptyServer.transactions ++
          [mkTx emptyServer.nextId "staff" samplePayload,
           mkTx (emptyServer.nextId + 1) "staff" samplePayload] :=
  ⟨rfl,
   (fee_payment_resubmission_duplicates baseState baseState rfl rfl
      emptyServer "staff" samplePayload).2.1⟩

/-- C3: the fee-payment submission coerces the amount field with parseFloat
and the id fields with parseInt before sending (concretely, amount 500.00
and ids 42 and 2024 become the number 500 and the integers 42 and 2024), and
a successful submission appends exactly one transaction of type Fee Payment
attributed to the authenticated user to the backend store. -/
theorem fee_payment_coercion_and_single_record (s : ClientState)
    (st : ServerState) (user : String) (p : ValidPayload) :
    (handleFeePaymentStart s).2.body = .feePayment (feePaymentBody s.feePayment) ∧
    (feePaymentBody s.feePayment).amount = parseFloatJS s.feePayment.amount ∧
    (feePaymentBody s.feePayment).student_id = parseIntJS s.feePayment.student_id ∧
    (feePaymentBody s.feePayment).year_id = parseIntJS s.feePayment.year_id ∧
    parseFloatJS "500.00" = some 500 ∧
    parseIntJS "42" = some 42 ∧
    parseIntJS "2024" = some 2024 ∧
    (recordFeePayment st user p).transactions
      = st.transactions ++ [mkTx st.nextId user p] ∧
    (recordFeePayment st user p).transactions.length = st.transactions.length + 1 ∧
    (mkTx st.nextId user p).transaction_type = "Fee Payment" ∧
    (mkTx st.nextId user p).recorded_by = user := by
  refine ⟨rfl, rfl, rfl, rfl, by decide, by decide, by decide, rfl, ?_, rfl, rfl⟩
  simp [recordFeePayment]

/-- C4: login sends the username and password as form fields with no
Authorization header; with correct credentials the backend returns an access
token which the client stores in state and in local storage together with a
user object holding only the username; with incorrect credentials the
backend returns no token but an error detail, the client's stored token is
unchanged, and the surfaced error detail is nonempty. -/
theorem login_success_and_failure (users : List (String × String))
    (u pw u₂ pw₂ : String) (hok : (u, pw) ∈ users) (hbad : (u₂, pw₂) ∉ users)
    (s : ClientState) (d : LoginOk) :
    loginBackend users u pw = .okResp { access_token := mkToken u } ∧
    loginBackend users u₂ pw₂ = .errResp (some "Incorrect username or password") ∧
    (handleLoginStart s).2.body
      = .loginForm [("username", s.loginData.username),
                    ("password", s.loginData.password)] ∧
    (handleLoginStart s).2.headers = [] ∧
    (handleLoginFinish s (.okResp d)).token = some d.access_token ∧
    (handleLoginFinish s (.okResp d)).lsToken = some d.access_token ∧
    (handleLoginFinish s (.okResp d)).user = some { username := s.loginData.username } ∧
    (handleLoginFinish s (.okResp d)).lsUser = some { username := s.loginData.username } ∧
    (handleLoginFinish s (.errResp (some "Incorrect username or password"))).token
      = s.token ∧
    (handleLoginFinish s (.errResp (some "Incorrect username or password"))).lsToken
      = s.lsToken ∧
    (handleLoginFinish s (.errResp (some "Incorrect username or password"))).error
      = "Incorrect username or password" ∧
    "Incorrect username or password" ≠ "" := by
  refine ⟨?_, ?_, rfl, rfl, rfl, rfl, rfl, rfl, ?_, ?_, ?_, by decide⟩
  · simp [loginBackend, hok]
  · simp [loginBackend, hbad]
  · rfl
  · rfl
  · rfl

/-- C4 witness: a one-user credential store with a correct and an incorrect
pair. -/
theorem login_success_and_failure_witness :
    ("alice", "pw1") ∈ [("alice", "pw1")] ∧
    loginBackend [("alice", "pw1")] "alice" "pw1"
      = .okResp { access_token := mkToken "alice" } :=
  ⟨by decide,
   (login_success_and_failure [("alice", "pw1")] "alice" "pw1" "bob" "nope"
      (by decide) (by decide) baseState { access_token := "t" }).1⟩

/-- C5 counterexample: the signup request is issued through apiCall, so with
a token held it carries the Authorization bearer header, contrary to the
claim that requests to the signup endpoint carry none. -/
theorem signup_request_carries_bearer :
    (createUserStart { baseState with token := some "tok" }).2.endpoint = "/signup" ∧
    ("Authorization", "Bearer tok") ∈
      (createUserStart { baseState with token := some "tok" }).2.headers := by
  refine ⟨rfl, ?_⟩
  decide

/-- C5 amended: every request issued through apiCall (fee payment, student
details, fee summary, transaction history, and signup as well) carries the
Authorization bearer header when a nonempty token is held and only the
Content-Type header when none is held, while the login request, which
bypasses apiCall, carries no headers at all. -/
theorem auth_header_policy (s : ClientState) (t : String) (ht : t ≠ "")
    (hs : s.token = some t) (s₀ : ClientState) (h₀ : s₀.token = none) :
    ("Authorization", "Bearer " ++ t) ∈ (handleFeePaymentStart s).2.headers ∧
    ("Authorization", "Bearer " ++ t) ∈ (fetchStudentDetailsStart s).2.headers ∧
    ("Authorization", "Bearer " ++ t) ∈ (fetchFeeSummaryStart s).2.headers ∧
    ("Authorization", "Bearer " ++ t) ∈ (fetchTransactionHistoryStart s).2.headers ∧
    ("Authorization", "Bearer " ++ t) ∈ (createUserStart s).2.headers ∧
    (handleLoginStart s).2.headers = [] ∧
    (handleFeePaymentStart s₀).2.headers = [("Content-Type", "application/json")] ∧
    (createUserStart s₀).2.headers = [("Content-Type", "application/json")] := by
  have hh : apiCallHeaders s.token =
      [("Content-Type", "application/json"), ("Authorization", "Bearer " ++ t)] := by
    rw [hs]
    simp [apiCallHeaders, ht]
  have hmem : ("Authorization", "Bearer " ++ t) ∈ apiCallHeaders s.token := by
    rw [hh]
    simp
  have h0 : apiCallHeaders s₀.token = [("Content-Type", "application/json")] := by
    rw [h₀]
    rfl
  exact ⟨hmem, hmem, hmem, hmem, hmem, rfl, h0, h0⟩

/-- C5 amended witness: a concrete held token on the fee-payment request. -/
theorem auth_header_policy_witness :
    ("tok" : String) ≠ "" ∧
    ("Authorization", "Bearer " ++ "tok") ∈
      (handleFeePaymentStart { baseState with token := some "tok" }).2.headers :=
  ⟨by decide,
   (auth_header_policy { baseState with token := some "tok" } "tok" (by decide)
      rfl baseState rfl).1⟩

/-- C6 counterexample: a non-2xx response whose body carries an empty detail
field is not surfaced verbatim — the client replaces it with the generic
message, because the empty string is falsy in JavaScript. -/
theorem empty_detail_not_verbatim :
    (fetchTransactionHistoryFinish baseState (.errResp (some ""))).error
      = "An error occurred" ∧
    "An error occurred" ≠ "" := ⟨rfl, by decide⟩

/-- C6 amended: for every non-2xx response whose detail field is present and
nonempty the client surfaces the detail verbatim as the single flat error
string of the state, transport-level failures (a thrown fetch) are caught
and surfaced through the identical code path to the identical field, and a
detail that is absent or empty is replaced by the generic message An error
occurred (Login failed for the login request); the handlers consume exactly
one outcome for the one request each issues, so nothing retries. -/
theorem error_message_surfacing (s : ClientState) (today d m : String)
    (hd : d ≠ "") :
    @apiCallResult Unit (.errResp (some d)) = .error d ∧
    @apiCallResult Unit (.thrown m) = .error m ∧
    @apiCallResult Unit (.errResp none) = .error "An error occurred" ∧
    @apiCallResult Unit (.errResp (some "")) = .error "An error occurred" ∧
    (fetchTransactionHistoryFinish s (.errResp (some d))).error = d ∧
    (fetchTransactionHistoryFinish s (.thrown m)).error = m ∧
    (fetchStudentDetailsFinish s (.errResp (some d))).error = d ∧
    (fetchStudentDetailsFinish s (.thrown m)).error = m ∧
    (fetchFeeSummaryFinish s (.errResp (some d))).error = d ∧
    (fetchFeeSummaryFinish s (.thrown m)).error = m ∧
    (handleFeePaymentFinish s today (.errResp (some d))).error = d ∧
    (handleFeePaymentFinish s today (.thrown m)).error = m ∧
    (createUserFinish s (.errResp (some d))).error = d ∧
    (createUserFinish s (.thrown m)).error = m ∧
    (handleLoginFinish s (.errResp (some d))).error = d ∧
    (handleLoginFinish s (.thrown m)).error = m ∧
    (handleLoginFinish s (.errResp none)).error = "Login failed" := by
  refine ⟨?_, ?_, ?_, ?_, ?_, ?_, ?_, ?_, ?_, ?_, ?_, ?_, ?_, ?_, ?_, ?_, ?_⟩ <;>
    simp [apiCallResult, jsOr, fetchTransactionHistoryFinish,
      fetchStudentDetailsFinish, fetchFeeSummaryFinish, handleFeePaymentFinish,
      createUserFinish, handleLoginFinish, loginResult, hd]

/-- C6 amended witness: a concrete nonempty detail surfaced verbatim. -/
theorem error_message_surfacing_witness :
    ("Student not found" : String) ≠ "" ∧
    (fetchStudentDetailsFinish baseState (.errResp (some "Student not found"))).error
      = "Student not found" :=
  ⟨by decide,
   (error_message_surfacing baseState "2024-06-01" "Student not found" "net down"
      (by decide)).2.2.2.2.2.2.1⟩

/-- C7: looking up a nonexistent student id yields a not-found error and
never a partial record, and the client clears the displayed student record
before the request and leaves it cleared on every failed lookup, so no
student record is shown after a failed lookup. -/
theorem student_lookup_not_found_clears (students : List StudentDetails)
    (sid : Int) (hmiss : ∀ st ∈ students, st.student_id ≠ sid)
    (s : ClientState) (hs : s.studentSearchId ≠ "") (d : Option String)
    (m : String) :
    lookupStudent students sid = .errResp (some "Student not found") ∧
    (fetchStudentDetailsStart s).1.studentDetails = none ∧
    (fetchStudentDetails s (.errResp d)).2.studentDetails = none ∧
    (fetchStudentDetails s (.thrown m)).2.studentDetails = none := by
  refine ⟨?_, rfl, ?_, ?_⟩
  · unfold lookupStudent
    have hfind : students.find? (fun st => st.student_id == sid) = none := by
      rw [List.find?_eq_none]
      intro st hst
      simpa using hmiss st hst
    rw [hfind]
  · simp [fetchStudentDetails, hs, fetchStudentDetailsStart,
      fetchStudentDetailsFinish, apiCallResult]
  · simp [fetchStudentDetails, hs, fetchStudentDetailsStart,
      fetchStudentDetailsFinish, apiCallResult]

/-- C7 witness: id 99 absent from a one-student store, searched from a state
holding 99 in the search field. -/
theorem student_lookup_not_found_clears_witness :
    (∀ st ∈ [sampleStudent], st.student_id ≠ 99) ∧
    lookupStudent [sampleStudent] 99 = .errResp (some "Student not found") :=
  ⟨by decide,
   (student_lookup_not_found_clears [sampleStudent] 99 (by decide)
      { baseState with studentSearchId := "99" } (by decide) none "boom").1⟩

/-- C8: for every client operation (login, fee payment, student lookup, fee
summary, transaction history, user creation) the loading flag is true in the
state in effect while the request is in flight, and the final state after
the response or the error arrives has the loading flag false, on the success
and on the error path alike. -/
theorem loading_flag_lifecycle (s : ClientState) (today : String)
    (o₁ : ApiOutcome LoginOk) (o₂ : ApiOutcome Unit)
    (o₃ : ApiOutcome StudentDetails) (o₄ : ApiOutcome FeeSummaryData)
    (o₅ : ApiOutcome (List ServerTx)) (o₆ : ApiOutcome Unit) :
    (handleLoginStart s).1.loading = true ∧
    (handleLoginFinish s o₁).loading = false ∧
    (handleFeePaymentStart s).1.loading = true ∧
    (handleFeePaymentFinish s today o₂).loading = false ∧
    (fetchStudentDetailsStart s).1.loading = true ∧
    (fetchStudentDetailsFinish s o₃).loading = false ∧
    (fetchFeeSummaryStart s).1.loading = true ∧
    (fetchFeeSummaryFinish s o₄).loading = false ∧
    (fetchTransactionHistoryStart s).1.loading = true ∧
    (fetchTransactionHistoryFinish s o₅).loading = false ∧
    (createUserStart s).1.loading = true ∧
    (createUserFinish s o₆).loading = false :=
  ⟨rfl, rfl, rfl, rfl, rfl, rfl, rfl, rfl, rfl, rfl, rfl, rfl⟩

/-- C9: after a successful fee-payment submission the form is reset to its
initial defaults for the current day (text fields empty, payment method
Cash, transaction date the current day), after a successful user creation
the new-user form is reset to its defaults (role Teaching Staff, other
fields empty), and after a failed submission of either kind the entered
form values are left unchanged. -/
theorem form_reset_on_success_only (s : ClientState) (today m : String)
    (d : Option String) :
    (handleFeePaymentFinish s today (.okResp ())).feePayment = initFeePayment today ∧
    (handleFeePaymentFinish s today (.thrown m)).feePayment = s.feePayment ∧
    (handleFeePaymentFinish s today (.errResp d)).feePayment = s.feePayment ∧
    (handleFeePaymentStart s).1.feePayment = s.feePayment ∧
    (initFeePayment today).student_id = "" ∧
    (initFeePayment today).amount = "" ∧
    (initFeePayment today).reference_details = "" ∧
    (initFeePayment today).description = "" ∧
    (initFeePayment today).year_id = "" ∧
    (initFeePayment today).payment_method = "Cash" ∧
    (initFeePayment today).transaction_date = today ∧
    (createUserFinish s (.okResp ())).newUser = initNewUser ∧
    (createUserFinish s (.thrown m)).newUser = s.newUser ∧
    (createUserFinish s (.errResp d)).newUser = s.newUser ∧
    (createUserStart s).1.newUser = s.newUser ∧
    initNewUser.username = "" ∧
    initNewUser.password = "" ∧
    initNewUser.full_name = "" ∧
    initNewUser.role = "Teaching Staff" :=
  ⟨rfl, rfl, rfl, rfl, rfl, rfl, rfl, rfl, rfl, rfl, rfl, rfl, rfl, rfl, rfl,
   rfl, rfl, rfl, rfl⟩

/-- C10: when the student id field is empty the student-details handler, and
when the student id field or the year id field is empty the fee-summary
handler, return immediately: no request is issued and the state, loading,
error and result fields included, is returned unchanged. -/
theorem empty_input_guard_noop (s₁ s₂ : ClientState)
    (o₁ : ApiOutcome StudentDetails) (o₂ : ApiOutcome FeeSummaryData)
    (h₁ : s₁.studentSearchId = "")
    (h₂ : s₂.summaryStudentId = "" ∨ s₂.summaryYearId = "") :
    fetchStudentDetails s₁ o₁ = (none, s₁) ∧ fetchFeeSummary s₂ o₂ = (none, s₂) := by
  constructor
  · unfold fetchStudentDetails
    rw [if_pos h₁]
  · unfold fetchFeeSummary
    rw [if_pos h₂]

/-- C10 witness: the initial state has both lookup fields empty. -/
theorem empty_input_guard_noop_witness :
    baseState.studentSearchId = "" ∧
    fetchStudentDetails baseState (.thrown "boom") = (none, baseState) :=
  ⟨rfl,
   (empty_input_guard_noop baseState baseState (.thrown "boom") (.thrown "x")
      rfl (Or.inl rfl)).1⟩
